import Mathlib

/-!
Shallow embedding of `src/streamdeck_ui/api.py`: the configuration store,
the animation cache, the render pass (`render`), the render-thread tick
(`render_thread`), the configuration loader (`_open_config`) and the
key-event dispatcher (`_key_change_callback`).

Modelling conventions:
* Python dicts become insertion-ordered association lists (`List (κ × α)`)
  with `alistGet?` / `alistSet` / `alistErase` / `setdefault` mirroring
  `d[k]` / `d[k] = v` / `d.pop(k, None)` / `d.setdefault(k, v)`.
* Python floats (animation timing) become rationals.
* External boundaries are abstracted: the PIL compositing of
  `_render_key_image` is an abstract parameter
  `rk : ButtonState -> List Nat * Rat` returning (native frames, fps);
  hardware writes, process launches and keystroke injection are recorded
  as emitted `Event`s; exceptions (`Popen` failure, `decks[...]`
  `KeyError`) are surfaced as an `Option String` exception component.
-/

namespace StreamdeckUI

/-- Lookup in an insertion-ordered association list: Python `d.get(k)`. -/
def alistGet? {κ α : Type} [DecidableEq κ] (k : κ) : List (κ × α) → Option α
  | [] => none
  | (k', v) :: m => if k' = k then some v else alistGet? k m

/-- Python `d[k] = v`: update in place when the key is present, append at the
end (insertion order) when absent. -/
def alistSet {κ α : Type} [DecidableEq κ] (k : κ) (v : α) : List (κ × α) → List (κ × α)
  | [] => [(k, v)]
  | (k', v') :: m => if k' = k then (k', v) :: m else (k', v') :: alistSet k v m

/-- Python `d.pop(k, None)`: removes the entry for `k` when present. -/
def alistErase {κ α : Type} [DecidableEq κ] (k : κ) : List (κ × α) → List (κ × α)
  | [] => []
  | (k', v) :: m => if k' = k then m else (k', v) :: alistErase k m

/-- Python `d.setdefault(k, dflt)`: returns the value stored at `k`
(inserting `dflt` first when `k` is absent) together with the updated dict. -/
def setdefault {κ α : Type} [DecidableEq κ] (k : κ) (dflt : α) (m : List (κ × α)) :
    α × List (κ × α) :=
  match alistGet? k m with
  | some v => (v, m)
  | none => (dflt, m ++ [(k, dflt)])

/-- One button's configuration dict.  Each Python dict key of the per-button
dict is modelled as an optional field (`none` = key absent). -/
structure ButtonState where
  text : Option String := none
  icon : Option String := none
  font : Option String := none
  command : Option String := none
  keys : Option String := none
  write : Option String := none
  switch_page : Option Int := none
  brightness_change : Option Int := none
  deriving DecidableEq

/-- One deck's dict inside the global `state` map: optional `"brightness"`
and `"page"` keys plus the `"buttons"` map `page -> button -> ButtonState`
(a missing `"buttons"` key is identified with the empty map, as the code
only ever reads it through `.get("buttons", {})` / `.setdefault`). -/
structure DeckState where
  brightness : Option Int := none
  page : Option Int := none
  buttons : List (Int × List (Int × ButtonState)) := []
  deriving DecidableEq

/-- The global `state` dict: deck serial -> deck state. -/
abbrev StateTree := List (String × DeckState)

/-- One entry of `image_cache`: the list `[image, fps, next_time, frame]`.
Native image frames are opaque tokens (`Nat`). -/
structure CacheEntry where
  frames : List Nat
  fps : ℚ
  next_time : ℚ
  frame : Nat
  deriving DecidableEq

/-- The global `image_cache` dict, keyed by `f"{deck_id}.{page}.{button}"`. -/
abbrev Cache := List (String × CacheEntry)

/-- Observable side effects on the external boundaries (hardware writes,
process launches, keystroke injection, page switches). -/
inductive Event where
  | launch (args : List String)
  | keyPress (name : String)
  | keyRelease (name : String)
  | typeText (s : String)
  | setBright (deck_id : String) (value : Int)
  | pageSwitch (deck_id : String) (page : Int)
  deriving DecidableEq

/-- The whole mutable world of `api.py`: the `state` tree, the
`image_cache`, the set of connected deck serials (`decks`), and the last
persisted snapshot (the JSON written by `export_config`). -/
structure World where
  state : StateTree := []
  cache : Cache := []
  decks : List String := []
  persisted : Option (Int × StateTree) := none
  deriving DecidableEq

/-- Modelled from the spec: `CONFIG_FILE_VERSION` is imported from
`streamdeck_ui/config.py`, which is not part of the sources here; the spec
says only that it is the compiled-in expected schema version.  Its concrete
value is irrelevant to every claim (only equality with it is tested). -/
def CONFIG_FILE_VERSION : Int := 1

/-- The cache key `f"{deck_id}.{page}.{button}"`. -/
def cacheKey (deck_id : String) (page button : Int) : String :=
  deck_id ++ "." ++ toString page ++ "." ++ toString button

/-- `export_config(output_file)`: serializes the whole tree with the schema
version tag.  The written JSON is modelled as the `persisted` field. -/
def export_config (w : World) : World :=
  { w with persisted := some (CONFIG_FILE_VERSION, w.state) }

/-- `_save_state()`: `export_config(STATE_FILE)`. -/
def _save_state (w : World) : World :=
  export_config w

/-- `get_brightness(deck_id)`: `state.get(deck_id, {}).get("brightness", 100)`. -/
def get_brightness (deck_id : String) (tree : StateTree) : Int :=
  (((alistGet? deck_id tree).getD {}).brightness).getD 100

/-- `get_page(deck_id)`: `state.get(deck_id, {}).get("page", 0)`. -/
def get_page (deck_id : String) (tree : StateTree) : Int :=
  (((alistGet? deck_id tree).getD {}).page).getD 0

/-- `_button_state(deck_id, page, button)`: the chain of `setdefault`s that
materializes the path `deck -> "buttons" -> page -> button`, returning the
button's dict.  Since the Python version mutates nested dicts in place, the
updated maps are written back along the path. -/
def _button_state (deck_id : String) (page button : Int) (tree : StateTree) :
    ButtonState × StateTree :=
  let r1 := setdefault deck_id {} tree
  let r2 := setdefault page [] r1.1.buttons
  let r3 := setdefault button {} r2.1
  let deck1 := { r1.1 with buttons := alistSet page r3.2 r2.2 }
  (r3.1, alistSet deck_id deck1 r1.2)

/-- `_button_state(deck_id, page, button)[field] = value`: materialize the
path exactly as `_button_state` does, then update the button dict in place. -/
def setButtonField (deck_id : String) (page button : Int)
    (f : ButtonState → ButtonState) (tree : StateTree) : StateTree :=
  let r1 := setdefault deck_id {} tree
  let r2 := setdefault page [] r1.1.buttons
  let r3 := setdefault button {} r2.1
  let pageMap2 := alistSet button (f r3.1) r3.2
  let deck1 := { r1.1 with buttons := alistSet page pageMap2 r2.2 }
  alistSet deck_id deck1 r1.2

/-- Pure lookup of a button's dict (no materialization); used to state
properties about absent triples. -/
def lookupButton (deck_id : String) (page button : Int) (tree : StateTree) :
    Option ButtonState :=
  (alistGet? deck_id tree).bind fun deck =>
    (alistGet? page deck.buttons).bind fun pageMap => alistGet? button pageMap

/-- `get_button_text`: `_button_state(...).get("text", "")` (note the getter
mutates the tree through `_button_state`'s `setdefault`s). -/
def get_button_text (deck_id : String) (page button : Int) (tree : StateTree) :
    String × StateTree :=
  let r := _button_state deck_id page button tree
  (r.1.text.getD "", r.2)

/-- `get_button_icon`: `_button_state(...).get("icon", "")`. -/
def get_button_icon (deck_id : String) (page button : Int) (tree : StateTree) :
    String × StateTree :=
  let r := _button_state deck_id page button tree
  (r.1.icon.getD "", r.2)

/-- `get_button_command`: `_button_state(...).get("command", "")`. -/
def get_button_command (deck_id : String) (page button : Int) (tree : StateTree) :
    String × StateTree :=
  let r := _button_state deck_id page button tree
  (r.1.command.getD "", r.2)

/-- `get_button_keys`: `_button_state(...).get("keys", "")`. -/
def get_button_keys (deck_id : String) (page button : Int) (tree : StateTree) :
    String × StateTree :=
  let r := _button_state deck_id page button tree
  (r.1.keys.getD "", r.2)

/-- `get_button_write`: `_button_state(...).get("write", "")`. -/
def get_button_write (deck_id : String) (page button : Int) (tree : StateTree) :
    String × StateTree :=
  let r := _button_state deck_id page button tree
  (r.1.write.getD "", r.2)

/-- `get_button_switch_page`: `_button_state(...).get("switch_page", 0)`. -/
def get_button_switch_page (deck_id : String) (page button : Int) (tree : StateTree) :
    Int × StateTree :=
  let r := _button_state deck_id page button tree
  (r.1.switch_page.getD 0, r.2)

/-- `get_button_change_brightness`: `_button_state(...).get("brightness_change", 0)`. -/
def get_button_change_brightness (deck_id : String) (page button : Int) (tree : StateTree) :
    Int × StateTree :=
  let r := _button_state deck_id page button tree
  (r.1.brightness_change.getD 0, r.2)

/-- The bookkeeping reset `render` applies to an already-cached entry:
`image_cache[key] = [image, fps, 0.0, 0]` (keep frames and fps, restart on
frame 0 with due-time 0). -/
def CacheEntry.reset (e : CacheEntry) : CacheEntry :=
  { e with next_time := 0, frame := 0 }

/-- The body of `render`'s inner loop for one `(button_id, button_settings)`
pair: populate a missing cache entry from `_render_key_image` (abstracted as
`rk`), or reset an existing one to frame 0 / due-time 0. -/
def renderButton (rk : ButtonState → List Nat × ℚ) (deck_id : String) (page : Int)
    (cache : Cache) (ent : Int × ButtonState) : Cache :=
  let key := cacheKey deck_id page ent.1
  match alistGet? key cache with
  | none => alistSet key ⟨(rk ent.2).1, (rk ent.2).2, 0, 0⟩ cache
  | some e => alistSet key e.reset cache

/-- The body of `render`'s outer loop for one `(deck_id, deck_state)` pair:
skip decks that are not connected, otherwise process every button on the
deck's active page. -/
def renderDeck (rk : ButtonState → List Nat × ℚ) (decksL : List String)
    (cache : Cache) (dk : String × DeckState) : Cache :=
  if dk.1 ∈ decksL then
    let page := dk.2.page.getD 0
    ((alistGet? page dk.2.buttons).getD []).foldl (renderButton rk dk.1 page) cache
  else cache

/-- `render()`: for every connected deck and its active page, populate or
reset the animation-cache entry of every button on that page.  Only the
cache changes; the hardware is not touched here. -/
def render (rk : ButtonState → List Nat × ℚ) (w : World) : World :=
  { w with cache := w.state.foldl (renderDeck rk w.decks) w.cache }

/-- `set_button_text(deck_id, page, button, text)`: store the text, pop the
cache entry, re-render, persist. -/
def set_button_text (rk : ButtonState → List Nat × ℚ) (deck_id : String)
    (page button : Int) (text : String) (w : World) : World :=
  let tree := setButtonField deck_id page button (fun bs => { bs with text := some text }) w.state
  let cache := alistErase (cacheKey deck_id page button) w.cache
  _save_state (render rk { w with state := tree, cache := cache })

/-- `set_button_icon(deck_id, page, button, icon)`: store the icon, pop the
cache entry, re-render, persist. -/
def set_button_icon (rk : ButtonState → List Nat × ℚ) (deck_id : String)
    (page button : Int) (icon : String) (w : World) : World :=
  let tree := setButtonField deck_id page button (fun bs => { bs with icon := some icon }) w.state
  let cache := alistErase (cacheKey deck_id page button) w.cache
  _save_state (render rk { w with state := tree, cache := cache })

/-- `set_button_change_brightness(deck_id, page, button, amount)`: store the
amount, re-render (no cache pop), persist. -/
def set_button_change_brightness (rk : ButtonState → List Nat × ℚ) (deck_id : String)
    (page button : Int) (amount : Int) (w : World) : World :=
  let tree := setButtonField deck_id page button
    (fun bs => { bs with brightness_change := some amount }) w.state
  _save_state (render rk { w with state := tree })

/-- `set_button_command(deck_id, page, button, command)`: store and persist
(no cache pop, no render). -/
def set_button_command (deck_id : String) (page button : Int) (command : String)
    (w : World) : World :=
  _save_state { w with
    state := setButtonField deck_id page button
      (fun bs => { bs with command := some command }) w.state }

/-- `set_button_switch_page(deck_id, page, button, switch_page)`: store and
persist (no cache pop, no render). -/
def set_button_switch_page (deck_id : String) (page button : Int) (switch_page : Int)
    (w : World) : World :=
  _save_state { w with
    state := setButtonField deck_id page button
      (fun bs => { bs with switch_page := some switch_page }) w.state }

/-- `set_button_keys(deck_id, page, button, keys)`: store and persist
(no cache pop, no render). -/
def set_button_keys (deck_id : String) (page button : Int) (keys : String)
    (w : World) : World :=
  _save_state { w with
    state := setButtonField deck_id page button
      (fun bs => { bs with keys := some keys }) w.state }

/-- `set_button_write(deck_id, page, button, write)`: store and persist
(no cache pop, no render). -/
def set_button_write (deck_id : String) (page button : Int) (write : String)
    (w : World) : World :=
  _save_state { w with
    state := setButtonField deck_id page button
      (fun bs => { bs with write := some write }) w.state }

/-- `set_brightness(deck_id, brightness)`: `decks[deck_id].set_brightness`
(a `KeyError`, modelled as `none`, when the deck is not connected), then
store the raw value and persist.  The hardware call is recorded as an
event. -/
def set_brightness (deck_id : String) (brightness : Int) (w : World) :
    Option (World × List Event) :=
  if deck_id ∈ w.decks then
    let r1 := setdefault deck_id {} w.state
    some (_save_state { w with
        state := alistSet deck_id { r1.1 with brightness := some brightness } r1.2 },
      [Event.setBright deck_id brightness])
  else none

/-- `change_brightness(deck_id, amount)`:
`set_brightness(deck_id, max(min(get_brightness(deck_id) + amount, 100), 0))`. -/
def change_brightness (deck_id : String) (amount : Int) (w : World) :
    Option (World × List Event) :=
  set_brightness deck_id (max (min (get_brightness deck_id w.state + amount) 100) 0) w

/-- `set_page(deck_id, page)`: store the page, re-render, persist. -/
def set_page (rk : ButtonState → List Nat × ℚ) (deck_id : String) (page : Int)
    (w : World) : World :=
  let r1 := setdefault deck_id {} w.state
  _save_state (render rk { w with
    state := alistSet deck_id { r1.1 with page := some page } r1.2 })

/-- The keystroke sequence of the `keys` action:
`keys.strip().replace(" ", "")` split on `","`; for every chord group, press
every `+`-separated key name, then release them in the same order.
(The `getattr(Key, name.lower(), name)` resolution to a pynput key object is
a keyboard-boundary detail; events carry the raw key name.) -/
def keysEvents (keys : String) : List Event :=
  let cleaned := (keys.trim).replace " " ""
  (cleaned.splitOn ",").flatMap fun sec =>
    ((sec.splitOn "+").map Event.keyPress) ++ ((sec.splitOn "+").map Event.keyRelease)

/-- `_key_change_callback(deck_id, _deck, key, state)`: on a press, run the
configured actions in the fixed order command, keys, write,
brightness_change, switch_page; on a release do nothing.  Returns the new
world, the emitted events, and `some exn` when an uncaught Python exception
(`Popen` failure, `decks[...]` `KeyError`) aborts the remaining actions.
`popenOk cmd = false` models `Popen(cmd.split(" "))` raising. -/
def _key_change_callback (rk : ButtonState → List Nat × ℚ) (popenOk : String → Bool)
    (deck_id : String) (key : Int) (pressed : Bool) (w : World) :
    World × List Event × Option String :=
  if pressed then
    let page := get_page deck_id w.state
    let rc := get_button_command deck_id page key w.state
    let command := rc.1
    let w1 := { w with state := rc.2 }
    if command ≠ "" ∧ popenOk command = false then
      (w1, [], some "FileNotFoundError")
    else
      let launchEvs := if command ≠ "" then [Event.launch (command.splitOn " ")] else []
      let rk2 := get_button_keys deck_id page key w1.state
      let w2 := { w1 with state := rk2.2 }
      let keyEvs := if rk2.1 ≠ "" then keysEvents rk2.1 else []
      let rw3 := get_button_write deck_id page key w2.state
      let w3 := { w2 with state := rw3.2 }
      let writeEvs := if rw3.1 ≠ "" then [Event.typeText rw3.1] else []
      let rb4 := get_button_change_brightness deck_id page key w3.state
      let bc := rb4.1
      let w4 := { w3 with state := rb4.2 }
      match (if bc ≠ 0 then change_brightness deck_id bc w4 else some (w4, [])) with
      | none => (w4, launchEvs ++ keyEvs ++ writeEvs, some "KeyError")
      | some (w5, brightEvs) =>
        let rs6 := get_button_switch_page deck_id page key w5.state
        let sp := rs6.1
        let w6 := { w5 with state := rs6.2 }
        if sp ≠ 0 then
          (set_page rk deck_id (sp - 1) w6,
            launchEvs ++ keyEvs ++ writeEvs ++ brightEvs ++ [Event.pageSwitch deck_id (sp - 1)],
            none)
        else
          (w6, launchEvs ++ keyEvs ++ writeEvs ++ brightEvs, none)
  else (w, [], none)

/-- One iteration of `render_thread`'s inner loop for a single cached entry
(lines 294-306 of `api.py`), at tick time `current_time`
(`round(time.monotonic() * 1000)`): an animated entry (`fps != 0`) that is
due pushes the pre-advance frame, re-arms `next_time = now + 1000/fps` and
advances the frame index mod the frame count; a static entry (`fps == 0`)
whose `next_time` is the pending-first-draw sentinel `0` pushes its frame
once and moves the sentinel to `-1.0`; otherwise nothing happens.  The
returned `Option Nat` is the index of the frame pushed by
`deck.set_key_image(button_id, image[frame])`, `none` when no push. -/
def tickEntry (current_time : ℚ) (e : CacheEntry) : CacheEntry × Option Nat :=
  if e.fps ≠ 0 ∧ current_time ≥ e.next_time then
    ({ e with next_time := current_time + 1000 / e.fps,
              frame := (e.frame + 1) % e.frames.length }, some e.frame)
  else if e.fps = 0 ∧ e.next_time = 0 then
    ({ e with next_time := -1, frame := (e.frame + 1) % e.frames.length }, some e.frame)
  else (e, none)

/-- Run the scheduler over one entry for a whole list of tick times,
collecting the pushed frame indices in order. -/
def runTicks : List ℚ → CacheEntry → CacheEntry × List Nat
  | [], e => (e, [])
  | t :: ts, e =>
    let (e1, push) := tickEntry t e
    let (e2, pushes) := runTicks ts e1
    (e2, push.toList ++ pushes)

/-- `n` tick times starting at `t0`, spaced 10 ms apart (the 100 Hz poll of
`render_thread`, `time.sleep(1/100)`). -/
def tickTimes : Nat → ℚ → List ℚ
  | 0, _ => []
  | n + 1, t0 => t0 :: tickTimes n (t0 + 10)

/-- One deck of the raw (string-keyed) JSON state file. -/
structure RawDeck where
  brightness : Option Int := none
  page : Option Int := none
  buttons : List (String × List (String × ButtonState)) := []
  deriving DecidableEq

/-- The parsed JSON of a state file: the `"streamdeck_ui_version"` tag
(`config.get("streamdeck_ui_version", 0)`) and the `"state"` object with
string page/button keys. -/
structure ConfigFile where
  streamdeck_ui_version : Option Int := none
  state : List (String × RawDeck) := []
  deriving DecidableEq

/-- Python `int(s)` on a JSON object key; a non-integer key raises. -/
def parseIntKey (s : String) : Except String Int :=
  match s.toInt? with
  | some i => Except.ok i
  | none => Except.error "invalid literal for int()"

/-- `_open_config(config_file)`: reject the file when its version tag
differs from `CONFIG_FILE_VERSION` (raising before any mutation), otherwise
build the new state tree with page/button keys converted to integers.  The
`Except` result models the raised `ValueError` reaching the caller with the
previous global `state` untouched. -/
def _open_config (config : ConfigFile) : Except String StateTree := do
  let file_version := config.streamdeck_ui_version.getD 0
  if file_version ≠ CONFIG_FILE_VERSION then
    throw ("Incompatible version of config file found: " ++ toString file_version)
  config.state.mapM fun dk => do
    let buttons ← dk.2.buttons.mapM fun pg => do
      let pid ← parseIntKey pg.1
      let btns ← pg.2.mapM fun bt => do
        let bid ← parseIntKey bt.1
        pure (bid, bt.2)
      pure (pid, btns)
    pure (dk.1, ({ brightness := dk.2.brightness, page := dk.2.page,
                   buttons := buttons } : DeckState))

/-- `import_config(config_file)`: `_open_config`, then `render()`, then
`_save_state()`.  When `_open_config` raises, the exception propagates and
the world is left untouched. -/
def import_config (rk : ButtonState → List Nat × ℚ) (config : ConfigFile)
    (w : World) : World :=
  match _open_config config with
  | Except.error _ => w
  | Except.ok tree => _save_state (render rk { w with state := tree })

/-- `get_button_text` as it acts on the whole world: only the `state` tree
is touched; the cache is not read or written and `_save_state` is not
called (getters never persist). -/
def get_button_text_world (deck_id : String) (page button : Int) (w : World) :
    String × World :=
  let r := get_button_text deck_id page button w.state
  (r.1, { w with state := r.2 })

/-- `get_button_command` as it acts on the whole world; see
`get_button_text_world`. -/
def get_button_command_world (deck_id : String) (page button : Int) (w : World) :
    String × World :=
  let r := get_button_command deck_id page button w.state
  (r.1, { w with state := r.2 })

/-- Concrete render-engine stub for the C3 scenario: one blank frame, fps 0
(what `_render_key_image` returns for an icon-less button). -/
def C3rk : ButtonState → List Nat × ℚ := fun _ => ([0], 0)

/-- Concrete world for the C3 counterexample: deck `"D"` connected, on page
0, with button 0 configured, and an empty animation cache. -/
def C3w : World :=
  { state := [("D", { page := some 0, buttons := [(0, [(0, {})])] })],
    decks := ["D"] }

/-- Concrete world for the C3 amended witness: like `C3w` but with a cache
entry already present for button `("D", 0, 0)`. -/
def C3wc : World :=
  { state := [("D", { page := some 0, buttons := [(0, [(0, {})])] })],
    cache := [("D.0.0", ⟨[5], 0, -1, 0⟩)],
    decks := ["D"] }

/-- Concrete render-engine stub for the C4 witness. -/
def C4rk : ButtonState → List Nat × ℚ := fun _ => ([0], 0)

/-- Concrete world for the C4 witness: deck `"D"` connected, on page 0,
button 0 with both a command and a write configured. -/
def C4w : World :=
  { state := [("D",
      { page := some 0,
        buttons := [(0, [(0, { command := some "x a", write := some "hello" })])] })],
    decks := ["D"] }

/-- Concrete world for the C5 witness: deck `"D"` connected with
brightness 95. -/
def C5w : World :=
  { state := [("D", { brightness := some 95 })], decks := ["D"] }

/-- Concrete render-engine stub for the C6 witness. -/
def C6rk : ButtonState → List Nat × ℚ := fun _ => ([0], 0)

/-- Concrete state file for the C6 witness: version tag 0, differing from
the expected `CONFIG_FILE_VERSION`. -/
def C6cfg : ConfigFile := { streamdeck_ui_version := some 0 }

/-- Concrete render-engine stub for the C7 counterexample. -/
def C7rk : ButtonState → List Nat × ℚ := fun _ => ([0], 0)

/-- Concrete world for the C7 counterexample: deck `"D"` connected, button 0
with a command that fails to launch and a write action. -/
def C7w : World :=
  { state := [("D",
      { page := some 0,
        buttons := [(0, [(0, { command := some "badcmd", write := some "hello" })])] })],
    decks := ["D"] }

/-- Concrete world for the C8 counterexample: deck `"D"` connected with an
in-range brightness of 50. -/
def C8w : World :=
  { state := [("D", { brightness := some 50 })], decks := ["D"] }

/-- The deck dict at `deck_id`, defaulting to empty: `state.get(deck_id, {})`. -/
def deckGetD (deck_id : String) (tree : StateTree) : DeckState :=
  (alistGet? deck_id tree).getD {}

/-- The page map of `deck_id`'s page `page`, defaulting to empty. -/
def pageGetD (deck_id : String) (page : Int) (tree : StateTree) :
    List (Int × ButtonState) :=
  (alistGet? page (deckGetD deck_id tree).buttons).getD []

/-- The button dict at a triple, defaulting to empty. -/
def buttonGetD (deck_id : String) (page button : Int) (tree : StateTree) : ButtonState :=
  (alistGet? button (pageGetD deck_id page tree)).getD {}

lemma alistGet?_set_self {κ α : Type} [DecidableEq κ] (k : κ) (v : α) (m : List (κ × α)) :
    alistGet? k (alistSet k v m) = some v := by
  induction m with
  | nil => simp [alistSet, alistGet?]
  | cons hd tl ih =>
    by_cases h : hd.1 = k
    · simp [alistSet, alistGet?, h]
    · simpa [alistSet, alistGet?, h] using ih

lemma alistGet?_set_ne {κ α : Type} [DecidableEq κ] {k' k : κ} (h : k' ≠ k) (v : α)
    (m : List (κ × α)) : alistGet? k (alistSet k' v m) = alistGet? k m := by
  induction m with
  | nil => simp [alistSet, alistGet?, h]
  | cons hd tl ih =>
    by_cases h2 : hd.1 = k'
    · simp [alistSet, alistGet?, h2, h]
    · by_cases h3 : hd.1 = k <;>
        simp [alistSet, alistGet?, h2, h3, h, Ne.symm h, ih]

lemma alistSet_lookup_self {κ α : Type} [DecidableEq κ] {k : κ} {v : α} {m : List (κ × α)}
    (h : alistGet? k m = some v) : alistSet k v m = m := by
  induction m with
  | nil => simp [alistGet?] at h
  | cons hd tl ih =>
    by_cases h2 : hd.1 = k
    · simp [alistGet?, h2] at h
      cases hd
      simp_all [alistSet]
    · simp [alistGet?, h2] at h
      simp [alistSet, h2, ih h]

lemma alistGet?_append_of_none {κ α : Type} [DecidableEq κ] {k : κ} {m : List (κ × α)}
    (h : alistGet? k m = none) (l : List (κ × α)) :
    alistGet? k (m ++ l) = alistGet? k l := by
  induction m with
  | nil => simp
  | cons hd tl ih =>
    by_cases h2 : hd.1 = k
    · simp [alistGet?, h2] at h
    · simp [alistGet?, h2] at h ⊢
      exact ih h

lemma alistSet_absent {κ α : Type} [DecidableEq κ] {k : κ} {m : List (κ × α)}
    (h : alistGet? k m = none) (v : α) : alistSet k v m = m ++ [(k, v)] := by
  induction m with
  | nil => simp [alistSet]
  | cons hd tl ih =>
    by_cases h2 : hd.1 = k
    · simp [alistGet?, h2] at h
    · simp [alistGet?, h2] at h
      simp [alistSet, h2, ih h]

lemma alistGet?_of_not_mem {κ α : Type} [DecidableEq κ] {k : κ} {m : List (κ × α)}
    (h : k ∉ m.map Prod.fst) : alistGet? k m = none := by
  induction m with
  | nil => rfl
  | cons hd tl ih =>
    simp only [List.map_cons, List.mem_cons, not_or] at h
    have h1 : hd.1 ≠ k := fun hh => h.1 hh.symm
    simp [alistGet?, h1, ih h.2]

lemma alistGet?_erase_self {κ α : Type} [DecidableEq κ] {m : List (κ × α)}
    (h : (m.map Prod.fst).Nodup) (k : κ) : alistGet? k (alistErase k m) = none := by
  induction m with
  | nil => rfl
  | cons hd tl ih =>
    simp only [List.map_cons, List.nodup_cons] at h
    by_cases h2 : hd.1 = k
    · simpa [alistErase, h2] using alistGet?_of_not_mem (h2 ▸ h.1)
    · simp [alistErase, alistGet?, h2, ih h.2]

lemma alistGet?_erase_ne {κ α : Type} [DecidableEq κ] {k' k : κ} (h : k' ≠ k)
    (m : List (κ × α)) : alistGet? k (alistErase k' m) = alistGet? k m := by
  induction m with
  | nil => rfl
  | cons hd tl ih =>
    by_cases h2 : hd.1 = k'
    · simp [alistErase, alistGet?, h2, h]
    · by_cases h3 : hd.1 = k <;>
        simp [alistErase, alistGet?, h2, h3, h, Ne.symm h, ih]

lemma setdefault_of_some {κ α : Type} [DecidableEq κ] {k : κ} {v : α} {m : List (κ × α)}
    (h : alistGet? k m = some v) (d : α) : setdefault k d m = (v, m) := by
  simp [setdefault, h]

lemma setdefault_of_none {κ α : Type} [DecidableEq κ] {k : κ} {m : List (κ × α)}
    (h : alistGet? k m = none) (d : α) : setdefault k d m = (d, m ++ [(k, d)]) := by
  simp [setdefault, h]

lemma alistSet_append_left_none {κ α : Type} [DecidableEq κ] {k : κ} {m : List (κ × α)}
    (h : alistGet? k m = none) (v : α) (l : List (κ × α)) :
    alistSet k v (m ++ l) = m ++ alistSet k v l := by
  induction m with
  | nil => simp
  | cons hd tl ih =>
    by_cases h2 : hd.1 = k
    · simp [alistGet?, h2] at h
    · simp [alistGet?, h2] at h
      simp [alistSet, h2, ih h]

/-- Characterization of `_button_state`: it returns the button dict found
along the (defaulted) path, and the tree with the materialized path written
back with `alistSet` at every level. -/
lemma _button_state_spec (deck_id : String) (page button : Int) (tree : StateTree) :
    _button_state deck_id page button tree =
      (buttonGetD deck_id page button tree,
        alistSet deck_id
          { deckGetD deck_id tree with
            buttons := alistSet page
              (alistSet button (buttonGetD deck_id page button tree)
                (pageGetD deck_id page tree))
              (deckGetD deck_id tree).buttons }
          tree) := by
  rcases h1 : alistGet? deck_id tree with _ | deck
  · simp [_button_state, buttonGetD, pageGetD, deckGetD, h1, setdefault, alistGet?,
      alistSet_append_left_none h1, alistSet_absent h1, alistSet]
  · rcases h2 : alistGet? page deck.buttons with _ | pm
    · simp [_button_state, buttonGetD, pageGetD, deckGetD, h1, h2, setdefault, alistGet?,
        alistSet_append_left_none h2, alistSet_absent h2, alistSet]
    · rcases h3 : alistGet? button pm with _ | bs
      · simp [_button_state, buttonGetD, pageGetD, deckGetD, h1, h2, h3, setdefault,
          alistGet?, alistSet_absent h3, alistSet]
      · simp [_button_state, buttonGetD, pageGetD, deckGetD, h1, h2, h3, setdefault,
          alistSet_lookup_self h3]

/-- Characterization of `setButtonField`, analogous to `_button_state_spec`:
the stored button dict is `f` applied to the previous (defaulted) one. -/
lemma setButtonField_spec (deck_id : String) (page button : Int)
    (f : ButtonState → ButtonState) (tree : StateTree) :
    setButtonField deck_id page button f tree =
      alistSet deck_id
        { deckGetD deck_id tree with
          buttons := alistSet page
            (alistSet button (f (buttonGetD deck_id page button tree))
              (pageGetD deck_id page tree))
            (deckGetD deck_id tree).buttons }
        tree := by
  rcases h1 : alistGet? deck_id tree with _ | deck
  · simp [setButtonField, buttonGetD, pageGetD, deckGetD, h1, setdefault, alistGet?,
      alistSet_append_left_none h1, alistSet_absent h1, alistSet]
  · rcases h2 : alistGet? page deck.buttons with _ | pm
    · simp [setButtonField, buttonGetD, pageGetD, deckGetD, h1, h2, setdefault, alistGet?,
        alistSet_append_left_none h2, alistSet_absent h2, alistSet]
    · rcases h3 : alistGet? button pm with _ | bs
      · simp [setButtonField, buttonGetD, pageGetD, deckGetD, h1, h2, h3, setdefault,
          alistGet?, alistSet_append_left_none h3, alistSet_absent h3, alistSet]
      · simp [setButtonField, buttonGetD, pageGetD, deckGetD, h1, h2, h3, setdefault]

lemma render_state (rk : ButtonState → List Nat × ℚ) (w : World) :
    (render rk w).state = w.state := rfl

lemma _save_state_state (w : World) : (_save_state w).state = w.state := rfl

lemma _save_state_cache (w : World) : (_save_state w).cache = w.cache := rfl

lemma buttonGetD_of_lookup {deck_id : String} {page button : Int} {tree : StateTree}
    {bs : ButtonState} (h : lookupButton deck_id page button tree = some bs) :
    buttonGetD deck_id page button tree = bs := by
  unfold lookupButton at h
  unfold buttonGetD pageGetD deckGetD
  rcases h1 : alistGet? deck_id tree with _ | deck
  · simp [h1] at h
  · rcases h2 : alistGet? page deck.buttons with _ | pm
    · simp [h1, h2] at h
    · simp [h1, h2] at h ⊢
      simp [h]

lemma buttonGetD_of_lookup_none {deck_id : String} {page button : Int}
    {tree : StateTree} (h : lookupButton deck_id page button tree = none) :
    buttonGetD deck_id page button tree = {} := by
  unfold lookupButton at h
  unfold buttonGetD pageGetD deckGetD
  rcases h1 : alistGet? deck_id tree with _ | deck
  · simp [h1, alistGet?]
  · rcases h2 : alistGet? page deck.buttons with _ | pm
    · simp [h1, h2, alistGet?]
    · simp [h1, h2] at h
      simp [h1, h2, h]

lemma lookupButton_setButtonField_self (deck_id : String) (page button : Int)
    (f : ButtonState → ButtonState) (tree : StateTree) :
    lookupButton deck_id page button (setButtonField deck_id page button f tree) =
      some (f (buttonGetD deck_id page button tree)) := by
  rw [setButtonField_spec]
  simp [lookupButton, alistGet?_set_self]

lemma buttonGetD_setButtonField_self (deck_id : String) (page button : Int)
    (f : ButtonState → ButtonState) (tree : StateTree) :
    buttonGetD deck_id page button (setButtonField deck_id page button f tree) =
      f (buttonGetD deck_id page button tree) :=
  buttonGetD_of_lookup (lookupButton_setButtonField_self deck_id page button f tree)

lemma _button_state_fst (deck_id : String) (page button : Int) (tree : StateTree) :
    (_button_state deck_id page button tree).1 = buttonGetD deck_id page button tree := by
  rw [_button_state_spec]

lemma _button_state_materializes (deck_id : String) (page button : Int) (tree : StateTree) :
    lookupButton deck_id page button ((_button_state deck_id page button tree).2) =
      some (buttonGetD deck_id page button tree) := by
  rw [_button_state_spec]
  simp [lookupButton, alistGet?_set_self]

lemma _button_state_idem (deck_id : String) (page button : Int) (tree : StateTree) :
    _button_state deck_id page button ((_button_state deck_id page button tree).2) =
      ((_button_state deck_id page button tree).1,
        (_button_state deck_id page button tree).2) := by
  rw [_button_state_spec deck_id page button tree]
  rw [_button_state_spec]
  simp [deckGetD, pageGetD, buttonGetD, alistGet?_set_self, alistSet_lookup_self]

lemma get_brightness_setButtonField (dd deck_id : String) (page button : Int)
    (f : ButtonState → ButtonState) (tree : StateTree) :
    get_brightness dd (setButtonField deck_id page button f tree) =
      get_brightness dd tree := by
  rw [setButtonField_spec]
  unfold get_brightness
  by_cases h : deck_id = dd
  · subst h
    simp [alistGet?_set_self, deckGetD]
  · rw [alistGet?_set_ne h]

lemma get_brightness_button_state (dd deck_id : String) (page button : Int)
    (tree : StateTree) :
    get_brightness dd ((_button_state deck_id page button tree).2) =
      get_brightness dd tree := by
  rw [_button_state_spec]
  unfold get_brightness
  by_cases h : deck_id = dd
  · subst h
    simp [alistGet?_set_self, deckGetD]
  · rw [alistGet?_set_ne h]

lemma get_brightness_set_page (rk : ButtonState → List Nat × ℚ) (deck_id : String)
    (page : Int) (w : World) :
    get_brightness deck_id (set_page rk deck_id page w).state =
      get_brightness deck_id w.state := by
  unfold set_page get_brightness
  rcases h : alistGet? deck_id w.state with _ | deck
  · rw [setdefault_of_none h]
    simp only [render_state, _save_state_state]
    rw [alistSet_append_left_none h]
    rw [alistGet?_append_of_none h]
    simp [alistGet?, alistSet, h]
  · rw [setdefault_of_some h]
    simp only [render_state, _save_state_state]
    simp [alistGet?_set_self, h]

lemma get_brightness_after_set (deck_id : String) (v : Int) (tree : StateTree) :
    get_brightness deck_id
      (alistSet deck_id { (setdefault deck_id {} tree).1 with brightness := some v }
        (setdefault deck_id {} tree).2) = v := by
  unfold get_brightness
  rcases h : alistGet? deck_id tree with _ | deck
  · rw [setdefault_of_none h]
    rw [alistSet_append_left_none h]
    rw [alistGet?_append_of_none h]
    simp [alistGet?, alistSet]
  · rw [setdefault_of_some h]
    simp [alistGet?_set_self]

lemma renderButton_lookup (rk : ButtonState → List Nat × ℚ) (deck_id : String)
    (page : Int) (c : Cache) (ent : Int × ButtonState) (k : String) :
    alistGet? k (renderButton rk deck_id page c ent) = alistGet? k c ∨
      ∃ fr f, alistGet? k (renderButton rk deck_id page c ent) = some ⟨fr, f, 0, 0⟩ := by
  simp only [renderButton]
  rcases h : alistGet? (cacheKey deck_id page ent.1) c with _ | e <;>
    simp only [h] <;> by_cases hk : cacheKey deck_id page ent.1 = k
  · right
    refine ⟨(rk ent.2).1, (rk ent.2).2, ?_⟩
    rw [← hk]
    exact alistGet?_set_self _ _ _
  · left
    exact alistGet?_set_ne hk _ _
  · right
    refine ⟨e.frames, e.fps, ?_⟩
    rw [← hk]
    exact alistGet?_set_self _ _ _
  · left
    exact alistGet?_set_ne hk _ _

lemma foldl_renderButton_lookup (rk : ButtonState → List Nat × ℚ) (deck_id : String)
    (page : Int) (l : List (Int × ButtonState)) :
    ∀ (c : Cache) (k : String),
      alistGet? k (l.foldl (renderButton rk deck_id page) c) = alistGet? k c ∨
        ∃ fr f, alistGet? k (l.foldl (renderButton rk deck_id page) c) =
          some ⟨fr, f, 0, 0⟩ := by
  induction l with
  | nil => intro c k; left; rfl
  | cons hd tl ih =>
    intro c k
    rw [List.foldl_cons]
    rcases ih (renderButton rk deck_id page c hd) k with h | h
    · rw [h]
      exact renderButton_lookup rk deck_id page c hd k
    · right; exact h

lemma renderDeck_lookup (rk : ButtonState → List Nat × ℚ) (decksL : List String)
    (c : Cache) (dk : String × DeckState) (k : String) :
    alistGet? k (renderDeck rk decksL c dk) = alistGet? k c ∨
      ∃ fr f, alistGet? k (renderDeck rk decksL c dk) = some ⟨fr, f, 0, 0⟩ := by
  unfold renderDeck
  by_cases h : dk.1 ∈ decksL
  · simp only [h, if_true]
    exact foldl_renderButton_lookup _ _ _ _ _ _
  · left
    simp [h]

lemma foldl_renderDeck_lookup (rk : ButtonState → List Nat × ℚ) (decksL : List String)
    (sl : StateTree) :
    ∀ (c : Cache) (k : String),
      alistGet? k (sl.foldl (renderDeck rk decksL) c) = alistGet? k c ∨
        ∃ fr f, alistGet? k (sl.foldl (renderDeck rk decksL) c) = some ⟨fr, f, 0, 0⟩ := by
  induction sl with
  | nil => intro c k; left; rfl
  | cons hd tl ih =>
    intro c k
    rw [List.foldl_cons]
    rcases ih (renderDeck rk decksL c hd) k with h | h
    · rw [h]
      exact renderDeck_lookup rk decksL c hd k
    · right; exact h

lemma render_lookup (rk : ButtonState → List Nat × ℚ) (w : World) (k : String) :
    alistGet? k (render rk w).cache = alistGet? k w.cache ∨
      ∃ fr f, alistGet? k (render rk w).cache = some ⟨fr, f, 0, 0⟩ :=
  foldl_renderDeck_lookup rk w.decks w.state w.cache k

lemma change_brightness_spec (deck_id : String) (amount : Int) (w : World)
    (hd : deck_id ∈ w.decks) :
    change_brightness deck_id amount w =
      some (_save_state { w with
          state := alistSet deck_id
            { (setdefault deck_id {} w.state).1 with
              brightness := some (max (min (get_brightness deck_id w.state + amount) 100) 0) }
            (setdefault deck_id {} w.state).2 },
        [Event.setBright deck_id
          (max (min (get_brightness deck_id w.state + amount) 100) 0)]) := by
  unfold change_brightness set_brightness
  rw [if_pos hd]

lemma clamp_mem_range (v : Int) : 0 ≤ max (min v 100) 0 ∧ max (min v 100) 0 ≤ 100 :=
  ⟨le_max_right _ _, max_le (min_le_right _ _) (by norm_num)⟩

lemma get_button_command_snd (d : String) (p b : Int) (t : StateTree) :
    (get_button_command d p b t).2 = (_button_state d p b t).2 := rfl

lemma get_button_keys_snd (d : String) (p b : Int) (t : StateTree) :
    (get_button_keys d p b t).2 = (_button_state d p b t).2 := rfl

lemma get_button_write_snd (d : String) (p b : Int) (t : StateTree) :
    (get_button_write d p b t).2 = (_button_state d p b t).2 := rfl

lemma get_button_change_brightness_snd (d : String) (p b : Int) (t : StateTree) :
    (get_button_change_brightness d p b t).2 = (_button_state d p b t).2 := rfl

lemma get_button_switch_page_snd (d : String) (p b : Int) (t : StateTree) :
    (get_button_switch_page d p b t).2 = (_button_state d p b t).2 := rfl

lemma runTicks_cycle (t : ℚ) (j : Nat) (fr : List Nat) :
    runTicks (tickTimes 10 t) ⟨fr, 10, t, j⟩ =
      (⟨fr, 10, t + 100, (j + 1) % fr.length⟩, [j]) := by
  have h0 : tickEntry t ⟨fr, 10, t, j⟩ =
      (⟨fr, 10, t + 100, (j + 1) % fr.length⟩, some j) := by
    unfold tickEntry
    rw [if_pos ⟨by norm_num, le_refl t⟩]
    norm_num
  have hstep : ∀ x : ℚ, x < t + 100 →
      tickEntry x ⟨fr, 10, t + 100, (j + 1) % fr.length⟩ =
        (⟨fr, 10, t + 100, (j + 1) % fr.length⟩, none) := by
    intro x hx
    unfold tickEntry
    rw [if_neg fun hc => absurd hc.2 (not_le.mpr hx), if_neg (by norm_num)]
  simp [tickTimes, runTicks, h0,
    hstep (t + 10) (by linarith),
    hstep (t + 10 + 10) (by linarith),
    hstep (t + 10 + 10 + 10) (by linarith),
    hstep (t + 10 + 10 + 10 + 10) (by linarith),
    hstep (t + 10 + 10 + 10 + 10 + 10) (by linarith),
    hstep (t + 10 + 10 + 10 + 10 + 10 + 10) (by linarith),
    hstep (t + 10 + 10 + 10 + 10 + 10 + 10 + 10) (by linarith),
    hstep (t + 10 + 10 + 10 + 10 + 10 + 10 + 10 + 10) (by linarith),
    hstep (t + 10 + 10 + 10 + 10 + 10 + 10 + 10 + 10 + 10) (by linarith)]

lemma tickTimes_add (a b : Nat) (t : ℚ) :
    tickTimes (a + b) t = tickTimes a t ++ tickTimes b (t + 10 * a) := by
  induction a generalizing t with
  | zero => simp [tickTimes]
  | succ a ih =>
    have hidx : a + 1 + b = a + b + 1 := by omega
    rw [hidx]
    rw [show tickTimes (a + b + 1) t = t :: tickTimes (a + b) (t + 10) from rfl]
    rw [ih (t + 10)]
    rw [show t + 10 + 10 * (a : ℚ) = t + 10 * (((a + 1 : Nat) : ℚ)) from by push_cast; ring]
    rw [show tickTimes (a + 1) t = t :: tickTimes a (t + 10) from rfl]
    rw [List.cons_append]

lemma runTicks_append (ts1 ts2 : List ℚ) (e : CacheEntry) :
    runTicks (ts1 ++ ts2) e =
      ((runTicks ts2 (runTicks ts1 e).1).1,
        (runTicks ts1 e).2 ++ (runTicks ts2 (runTicks ts1 e).1).2) := by
  induction ts1 generalizing e with
  | nil => simp [runTicks]
  | cons t ts ih => simp [runTicks, ih, List.append_assoc]

lemma runTicks_cycles (n : Nat) (t : ℚ) (j : Nat) (fr : List Nat)
    (hfr : fr.length = 5) (hj : j < 5) :
    (runTicks (tickTimes (10 * n) t) ⟨fr, 10, t, j⟩).2 =
      (List.range n).map (fun i => (j + i) % 5) := by
  induction n generalizing t j with
  | zero => simp [tickTimes, runTicks]
  | succ n ih =>
    have hsplit : 10 * (n + 1) = 10 + 10 * n := by ring
    rw [hsplit, tickTimes_add 10 (10 * n) t, runTicks_append, runTicks_cycle]
    rw [show t + 10 * (10 : Nat) = t + 100 from by norm_num]
    rw [hfr]
    rw [ih (t + 100) ((j + 1) % 5) (Nat.mod_lt _ (by norm_num))]
    have hcongr : ∀ i, ((j + 1) % 5 + i) % 5 = (j + (i + 1)) % 5 := fun i => by omega
    simp [List.range_succ_eq_map, Nat.mod_eq_of_lt hj, hcongr, Function.comp]

lemma runTicks_no_push (ts : List ℚ) (e : CacheEntry) (h0 : e.fps = 0)
    (hn : e.next_time ≠ 0) : runTicks ts e = (e, []) := by
  induction ts with
  | nil => rfl
  | cons t ts ih =>
    have ht : tickEntry t e = (e, none) := by
      unfold tickEntry
      rw [if_neg fun hc => hc.1 h0, if_neg fun hc => hn hc.2]
    simp [runTicks, ht, ih]

/-- C1: for every animation-cache entry with `fps > 0`, a scheduler tick at
or past the entry's due time pushes the pre-advance frame (the frame at the
stored index), sets the new due time to `now + 1000/fps` and the new frame
index to `(index + 1) % frameCount` (a valid index); a tick before the due
time pushes nothing and leaves the entry unchanged.  An entry with `fps=10`
and 5 frames, ticked every 10 ms over 2000 ms, produces exactly 20 pushes
cycling the indices `0,1,2,3,4,0,1,...`. -/
theorem C1_animated_entry_tick (e : CacheEntry) (now : ℚ) (hfps : 0 < e.fps)
    (hlen : 0 < e.frames.length) :
    (e.next_time ≤ now →
      tickEntry now e =
        ({ e with next_time := now + 1000 / e.fps,
                  frame := (e.frame + 1) % e.frames.length }, some e.frame)) ∧
    ((e.frame + 1) % e.frames.length < e.frames.length) ∧
    (now < e.next_time → tickEntry now e = (e, none)) ∧
    (runTicks (tickTimes 200 0) ⟨[0, 1, 2, 3, 4], 10, 0, 0⟩).2 =
      (List.range 20).map (fun i => i % 5) := by
  refine ⟨?_, Nat.mod_lt _ hlen, ?_, ?_⟩
  · intro h
    unfold tickEntry
    rw [if_pos ⟨ne_of_gt hfps, h⟩]
  · intro h
    unfold tickEntry
    rw [if_neg fun hc => absurd hc.2 (not_le.mpr h),
      if_neg fun hc => (ne_of_gt hfps) hc.1]
  · have h := runTicks_cycles 20 0 0 [0, 1, 2, 3, 4] rfl (by norm_num)
    rw [show (200 : Nat) = 10 * 20 from rfl, h]
    simp

/-- C1 witness: the theorem applied to the concrete entry
`frames=[0,1,2,3,4], fps=10, next_time=100, frame=2` at tick time 150,
which is due: it pushes frame 2 and re-arms for time 250 with frame 3. -/
theorem C1_animated_entry_tick_witness :
    (0 : ℚ) < (⟨[0, 1, 2, 3, 4], 10, 100, 2⟩ : CacheEntry).fps ∧
    0 < (⟨[0, 1, 2, 3, 4], 10, 100, 2⟩ : CacheEntry).frames.length ∧
    tickEntry 150 ⟨[0, 1, 2, 3, 4], 10, 100, 2⟩ =
      (⟨[0, 1, 2, 3, 4], 10, 250, 3⟩, some 2) := by
  have h := C1_animated_entry_tick ⟨[0, 1, 2, 3, 4], 10, 100, 2⟩ 150
    (by norm_num) (by norm_num)
  refine ⟨by norm_num, by norm_num, ?_⟩
  rw [h.1 (by norm_num)]
  norm_num

/-- C2: a static animation-cache entry (`fps = 0`) in the post-render state
(due-time sentinel 0, frame index 0) is pushed exactly once by the
scheduler: the first tick pushes frame 0 and moves the sentinel to `-1`,
after which no sequence of later ticks ever pushes it again; once a new
render resets the entry (`CacheEntry.reset`, the bookkeeping `render`
writes back), the next tick pushes frame 0 once more. -/
theorem C2_static_entry_once (e : CacheEntry) (now now2 : ℚ) (ts : List ℚ)
    (h0 : e.fps = 0) (hs : e.next_time = 0) (hf : e.frame = 0) :
    tickEntry now e =
      ({ e with next_time := -1, frame := 1 % e.frames.length }, some 0) ∧
    (runTicks ts (tickEntry now e).1).2 = [] ∧
    tickEntry now2 ((tickEntry now e).1.reset) =
      ({ (tickEntry now e).1.reset with
          next_time := -1, frame := 1 % e.frames.length }, some 0) := by
  have h1 : tickEntry now e =
      ({ e with next_time := -1, frame := 1 % e.frames.length }, some 0) := by
    unfold tickEntry
    rw [if_neg fun hc => hc.1 h0, if_pos ⟨h0, hs⟩, hf]
  refine ⟨h1, ?_, ?_⟩
  · rw [h1]
    exact congrArg Prod.snd
      (runTicks_no_push ts ⟨e.frames, e.fps, -1, 1 % e.frames.length⟩ h0 (by norm_num))
  · rw [h1]
    unfold CacheEntry.reset tickEntry
    rw [if_neg fun hc => hc.1 h0, if_pos ⟨h0, rfl⟩]

/-- C2 witness: the theorem applied to the concrete static entry
`frames=[7,8], fps=0, next_time=0, frame=0`: the tick at time 5 pushes
frame 0 and disarms the entry, ticks at times 10 and 20 push nothing, and
after a render reset the tick at time 30 pushes frame 0 again. -/
theorem C2_static_entry_once_witness :
    (⟨[7, 8], 0, 0, 0⟩ : CacheEntry).fps = 0 ∧
    (⟨[7, 8], 0, 0, 0⟩ : CacheEntry).next_time = 0 ∧
    (⟨[7, 8], 0, 0, 0⟩ : CacheEntry).frame = 0 ∧
    tickEntry 5 ⟨[7, 8], 0, 0, 0⟩ = (⟨[7, 8], 0, -1, 1⟩, some 0) ∧
    (runTicks [10, 20] (tickEntry 5 ⟨[7, 8], 0, 0, 0⟩).1).2 = [] ∧
    tickEntry 30 ((tickEntry 5 ⟨[7, 8], 0, 0, 0⟩).1.reset) =
      (⟨[7, 8], 0, -1, 1⟩, some 0) := by
  have h := C2_static_entry_once ⟨[7, 8], 0, 0, 0⟩ 5 30 [10, 20] rfl rfl rfl
  refine ⟨rfl, rfl, rfl, ?_, h.2.1, ?_⟩
  · rw [h.1]
    rfl
  · rw [h.2.2, h.1]
    rfl


/-- C5: for every connected device and every signed delta,
`change_brightness` stores exactly the old brightness plus the delta
clamped into `[0, 100]` (`max(min(old + delta, 100), 0)`), regardless of
the delta's magnitude or sign. -/
theorem C5_change_brightness_clamps (deck_id : String) (amount : Int) (w : World)
    (h : deck_id ∈ w.decks) :
    ∃ w2 evs, change_brightness deck_id amount w = some (w2, evs) ∧
      get_brightness deck_id w2.state =
        max (min (get_brightness deck_id w.state + amount) 100) 0 := by
  rw [change_brightness_spec deck_id amount w h]
  refine ⟨_, _, rfl, ?_⟩
  simp only [_save_state_state]
  exact get_brightness_after_set deck_id _ w.state

/-- C5 witness: the theorem applied to a deck at brightness 95 with delta
+20 stores 100, and with delta -200 stores 0. -/
theorem C5_change_brightness_clamps_witness :
    "D" ∈ C5w.decks ∧
    (∃ w2 evs, change_brightness "D" 20 C5w = some (w2, evs) ∧
      get_brightness "D" w2.state = 100) ∧
    (∃ w2 evs, change_brightness "D" (-200) C5w = some (w2, evs) ∧
      get_brightness "D" w2.state = 0) := by
  obtain ⟨w2, evs, he, hv⟩ := C5_change_brightness_clamps "D" 20 C5w (by decide)
  obtain ⟨w3, evs3, he3, hv3⟩ := C5_change_brightness_clamps "D" (-200) C5w (by decide)
  refine ⟨by decide, ⟨w2, evs, he, ?_⟩, ⟨w3, evs3, he3, ?_⟩⟩
  · rw [hv]
    decide
  · rw [hv3]
    decide

/-- C6: loading a state file whose version tag differs from the expected
`CONFIG_FILE_VERSION` fails with an error, and `import_config` leaves the
whole in-memory world (state tree, cache, persisted snapshot) completely
unchanged. -/
theorem C6_version_mismatch_atomic (rk : ButtonState → List Nat × ℚ)
    (config : ConfigFile) (w : World)
    (h : config.streamdeck_ui_version.getD 0 ≠ CONFIG_FILE_VERSION) :
    (∃ msg, _open_config config = Except.error msg) ∧
      import_config rk config w = w := by
  have he : _open_config config =
      Except.error ("Incompatible version of config file found: " ++
        toString (config.streamdeck_ui_version.getD 0)) := by
    unfold _open_config
    simp [h]
    rfl
  exact ⟨⟨_, he⟩, by unfold import_config; rw [he]⟩

/-- C6 witness: the theorem applied to a file with version tag 0 and an
arbitrary non-empty world: the load fails and the world is untouched. -/
theorem C6_version_mismatch_atomic_witness :
    C6cfg.streamdeck_ui_version.getD 0 ≠ CONFIG_FILE_VERSION ∧
    (∃ msg, _open_config C6cfg = Except.error msg) ∧
    import_config C6rk C6cfg { state := [("E", {})], decks := ["E"] } =
      { state := [("E", {})], decks := ["E"] } := by
  have h := C6_version_mismatch_atomic C6rk C6cfg
    { state := [("E", {})], decks := ["E"] } (by decide)
  exact ⟨by decide, h.1, h.2⟩

/-- C9: for every `(deck, page, button)` triple and value, the getter read
immediately after the corresponding setter returns exactly the value that
was set, for each of the seven scalar button fields (text, icon, command,
keys, write, switch_page, brightness_change). -/
theorem C9_set_get_roundtrip (rk : ButtonState → List Nat × ℚ) (d : String)
    (p b : Int) (w : World) (s : String) (n : Int) :
    (get_button_text d p b (set_button_text rk d p b s w).state).1 = s ∧
    (get_button_icon d p b (set_button_icon rk d p b s w).state).1 = s ∧
    (get_button_command d p b (set_button_command d p b s w).state).1 = s ∧
    (get_button_keys d p b (set_button_keys d p b s w).state).1 = s ∧
    (get_button_write d p b (set_button_write d p b s w).state).1 = s ∧
    (get_button_switch_page d p b (set_button_switch_page d p b n w).state).1 = n ∧
    (get_button_change_brightness d p b
      (set_button_change_brightness rk d p b n w).state).1 = n := by
  refine ⟨?_, ?_, ?_, ?_, ?_, ?_, ?_⟩ <;>
    simp [get_button_text, get_button_icon, get_button_command, get_button_keys,
      get_button_write, get_button_switch_page, get_button_change_brightness,
      set_button_text, set_button_icon, set_button_command, set_button_keys,
      set_button_write, set_button_switch_page, set_button_change_brightness,
      _save_state, export_config, render, _button_state_fst,
      buttonGetD_setButtonField_self]

/-- C10: the button getters are not read-only: on a triple absent from the
tree, `get_button_text` (resp. `get_button_command`) returns the default
value and, as a side effect, materializes an empty button entry for that
triple in the tree — without touching the animation cache or the persisted
snapshot. -/
theorem C10_getters_materialize (d : String) (p b : Int) (w : World)
    (h : lookupButton d p b w.state = none) :
    (get_button_text d p b w.state).1 = "" ∧
    lookupButton d p b (get_button_text d p b w.state).2 = some {} ∧
    (get_button_command d p b w.state).1 = "" ∧
    lookupButton d p b (get_button_command d p b w.state).2 = some {} ∧
    (get_button_text_world d p b w).2.cache = w.cache ∧
    (get_button_text_world d p b w).2.persisted = w.persisted ∧
    (get_button_command_world d p b w).2.cache = w.cache ∧
    (get_button_command_world d p b w).2.persisted = w.persisted := by
  have hd : buttonGetD d p b w.state = {} := buttonGetD_of_lookup_none h
  refine ⟨?_, ?_, ?_, ?_, rfl, rfl, rfl, rfl⟩
  · simp [get_button_text, _button_state_fst, hd]
  · simpa [get_button_text, hd] using _button_state_materializes d p b w.state
  · simp [get_button_command, _button_state_fst, hd]
  · simpa [get_button_command, hd] using _button_state_materializes d p b w.state

/-- C10 witness: the theorem applied to the empty world and the triple
`("D", 0, 0)`: both getters return `""` and insert the empty button dict. -/
theorem C10_getters_materialize_witness :
    lookupButton "D" 0 0 ([] : StateTree) = none ∧
    (get_button_text "D" 0 0 ([] : StateTree)).1 = "" ∧
    lookupButton "D" 0 0 (get_button_text "D" 0 0 ([] : StateTree)).2 = some {} ∧
    (get_button_command "D" 0 0 ([] : StateTree)).1 = "" ∧
    lookupButton "D" 0 0 (get_button_command "D" 0 0 ([] : StateTree)).2 = some {} := by
  have h := C10_getters_materialize "D" 0 0 {} (by decide)
  exact ⟨by decide, h.1, h.2.1, h.2.2.1, h.2.2.2.1⟩

lemma callback_preserves_brightness (rk : ButtonState → List Nat × ℚ)
    (popenOk : String → Bool) (d : String) (k : Int) (pressed : Bool) (w : World)
    (hd : d ∈ w.decks) (h0 : 0 ≤ get_brightness d w.state)
    (h1 : get_brightness d w.state ≤ 100) :
    0 ≤ get_brightness d (_key_change_callback rk popenOk d k pressed w).1.state ∧
      get_brightness d (_key_change_callback rk popenOk d k pressed w).1.state ≤ 100 := by
  cases pressed with
  | false => exact ⟨h0, h1⟩
  | true =>
    simp only [_key_change_callback, if_true]
    set pg := get_page d w.state with hpg
    set rc := get_button_command d pg k w.state with hrc
    have hb1 : get_brightness d rc.2 = get_brightness d w.state := by
      rw [hrc, get_button_command_snd]
      exact get_brightness_button_state d d pg k w.state
    by_cases hc : rc.1 ≠ "" ∧ popenOk rc.1 = false
    · rw [if_pos hc]
      rw [hb1]
      exact ⟨h0, h1⟩
    · rw [if_neg hc]
      set rk2 := get_button_keys d pg k rc.2 with hrk2
      set rw3 := get_button_write d pg k rk2.2 with hrw3
      set rb4 := get_button_change_brightness d pg k rw3.2 with hrb4
      have hb4 : get_brightness d rb4.2 = get_brightness d w.state := by
        rw [hrb4, get_button_change_brightness_snd, get_brightness_button_state,
          hrw3, get_button_write_snd, get_brightness_button_state,
          hrk2, get_button_keys_snd, get_brightness_button_state, hb1]
      by_cases hbc : rb4.1 ≠ 0
      · rw [if_pos hbc, change_brightness_spec d rb4.1
          { state := rb4.2, cache := w.cache, decks := w.decks,
            persisted := w.persisted } hd]
        simp only []
        constructor <;> split <;>
          simp only [_save_state_state, get_button_switch_page_snd,
            get_brightness_set_page, get_brightness_button_state,
            get_brightness_after_set] <;>
          first
          | exact (clamp_mem_range _).1
          | exact (clamp_mem_range _).2
      · rw [if_neg hbc]
        simp only []
        constructor <;> split <;>
          simp only [_save_state_state, get_button_switch_page_snd,
            get_brightness_set_page, get_brightness_button_state,
            get_brightness_after_set, hb4] <;>
          first
          | exact h0
          | exact h1

/-- C8 counterexample: the claim "every operation that writes brightness
preserves brightness in [0,100]" is false for `set_brightness`: from a
state where deck `"D"` holds brightness 50 (in range), `set_brightness`
with argument 150 stores 150, which is out of range. -/
theorem C8_brightness_invariant_counterexample :
    0 ≤ get_brightness "D" C8w.state ∧ get_brightness "D" C8w.state ≤ 100 ∧
    (set_brightness "D" 150 C8w).map (fun p => get_brightness "D" p.1.state) =
      some 150 ∧
    ¬ (150 : Int) ≤ 100 := by
  decide

/-- C8 amended: `change_brightness` always stores a value in `[0,100]`
(and so does the key-press brightnessChange action, which goes through it:
a key event preserves the brightness invariant of the pressed deck);
`set_brightness`, by contrast, stores its argument verbatim, so it
preserves the invariant only when the argument is already in `[0,100]`. -/
theorem C8_brightness_invariant_amended (d : String) (amt bv : Int) (w : World)
    (hd : d ∈ w.decks) :
    (∀ w2 evs, change_brightness d amt w = some (w2, evs) →
      0 ≤ get_brightness d w2.state ∧ get_brightness d w2.state ≤ 100) ∧
    (∀ w2 evs, set_brightness d bv w = some (w2, evs) →
      get_brightness d w2.state = bv) ∧
    (∀ rk popenOk k pressed,
      0 ≤ get_brightness d w.state → get_brightness d w.state ≤ 100 →
      0 ≤ get_brightness d (_key_change_callback rk popenOk d k pressed w).1.state ∧
        get_brightness d (_key_change_callback rk popenOk d k pressed w).1.state ≤ 100) := by
  refine ⟨?_, ?_, ?_⟩
  · intro w2 evs he
    rw [change_brightness_spec d amt w hd] at he
    obtain ⟨he1, _⟩ := Prod.mk.injEq .. ▸ (Option.some.injEq .. ▸ he)
    rw [← he1]
    simp only [_save_state_state]
    rw [get_brightness_after_set]
    exact clamp_mem_range _
  · intro w2 evs he
    unfold set_brightness at he
    rw [if_pos hd] at he
    obtain ⟨he1, _⟩ := Prod.mk.injEq .. ▸ (Option.some.injEq .. ▸ he)
    rw [← he1]
    simp only [_save_state_state]
    exact get_brightness_after_set d bv w.state
  · intro rk popenOk k pressed h0 h1
    exact callback_preserves_brightness rk popenOk d k pressed w hd h0 h1

/-- C8 witness: the amended theorem applied to deck `"D"` at brightness 50:
`change_brightness` by +200 stores 100 (in range), and `set_brightness` 70
stores exactly 70. -/
theorem C8_brightness_invariant_amended_witness :
    "D" ∈ C8w.decks ∧
    (∀ w2 evs, change_brightness "D" 200 C8w = some (w2, evs) →
      0 ≤ get_brightness "D" w2.state ∧ get_brightness "D" w2.state ≤ 100) ∧
    (∀ w2 evs, set_brightness "D" 70 C8w = some (w2, evs) →
      get_brightness "D" w2.state = 70) := by
  have h := C8_brightness_invariant_amended "D" 200 70 C8w (by decide)
  exact ⟨by decide, h.1, h.2.1⟩

/-- C3 counterexample: the claim that setting `brightness_change` leaves
the animation cache's set of entries unchanged is false: on a world with an
empty cache whose deck `"D"` is connected and shows page 0 with button 0,
`set_button_change_brightness` triggers `render()`, which inserts a fresh
cache entry `"D.0.0"`. -/
theorem C3_cache_invalidation_counterexample :
    C3w.cache.map Prod.fst = [] ∧
    (set_button_change_brightness C3rk "D" 0 0 5 C3w).cache.map Prod.fst =
      ["D.0.0"] ∧
    ¬ (set_button_change_brightness C3rk "D" 0 0 5 C3w).cache.map Prod.fst =
        C3w.cache.map Prod.fst := by
  decide

/-- C3 amended: setting `text` or `icon` removes the button's existing cache
entry (the invalidation `image_cache.pop` leaves no entry at the key) and
then triggers a re-render, so after the full setter the key holds either no
entry or a freshly reset one (due-time 0, frame 0); setting `command`,
`keys`, `write` or `switch_page` leaves the cache exactly unchanged;
setting `brightness_change` pops nothing — it never removes an entry — but
its render pass may insert fresh entries for visible buttons. -/
theorem C3_cache_invalidation_amended (rk : ButtonState → List Nat × ℚ)
    (d : String) (p b : Int) (s : String) (nsp nb : Int) (w : World)
    (hnd : (w.cache.map Prod.fst).Nodup) :
    (alistGet? (cacheKey d p b) (alistErase (cacheKey d p b) w.cache) = none) ∧
    (alistGet? (cacheKey d p b) (set_button_text rk d p b s w).cache = none ∨
      ∃ fr f, alistGet? (cacheKey d p b) (set_button_text rk d p b s w).cache =
        some ⟨fr, f, 0, 0⟩) ∧
    (alistGet? (cacheKey d p b) (set_button_icon rk d p b s w).cache = none ∨
      ∃ fr f, alistGet? (cacheKey d p b) (set_button_icon rk d p b s w).cache =
        some ⟨fr, f, 0, 0⟩) ∧
    ((set_button_command d p b s w).cache = w.cache) ∧
    ((set_button_keys d p b s w).cache = w.cache) ∧
    ((set_button_write d p b s w).cache = w.cache) ∧
    ((set_button_switch_page d p b nsp w).cache = w.cache) ∧
    (∀ kk, (alistGet? kk w.cache).isSome = true →
      (alistGet? kk (set_button_change_brightness rk d p b nb w).cache).isSome = true) := by
  have herase : alistGet? (cacheKey d p b) (alistErase (cacheKey d p b) w.cache) =
      none := alistGet?_erase_self hnd _
  have htext : alistGet? (cacheKey d p b) (set_button_text rk d p b s w).cache =
      alistGet? (cacheKey d p b) (alistErase (cacheKey d p b) w.cache) ∨
      ∃ fr f, alistGet? (cacheKey d p b) (set_button_text rk d p b s w).cache =
        some ⟨fr, f, 0, 0⟩ :=
    render_lookup rk
      { w with
        state := setButtonField d p b (fun bs => { bs with text := some s }) w.state,
        cache := alistErase (cacheKey d p b) w.cache } (cacheKey d p b)
  have hicon : alistGet? (cacheKey d p b) (set_button_icon rk d p b s w).cache =
      alistGet? (cacheKey d p b) (alistErase (cacheKey d p b) w.cache) ∨
      ∃ fr f, alistGet? (cacheKey d p b) (set_button_icon rk d p b s w).cache =
        some ⟨fr, f, 0, 0⟩ :=
    render_lookup rk
      { w with
        state := setButtonField d p b (fun bs => { bs with icon := some s }) w.state,
        cache := alistErase (cacheKey d p b) w.cache } (cacheKey d p b)
  refine ⟨herase, ?_, ?_, rfl, rfl, rfl, rfl, ?_⟩
  · rcases htext with h | h
    · left
      rw [h, herase]
    · right
      exact h
  · rcases hicon with h | h
    · left
      rw [h, herase]
    · right
      exact h
  · intro kk hkk
    have hb := render_lookup rk
      { w with
        state := setButtonField d p b
          (fun bs => { bs with brightness_change := some nb }) w.state } kk
    rcases hb with h | h
    · have : (alistGet? kk (set_button_change_brightness rk d p b nb w).cache) =
          alistGet? kk w.cache := h
      rw [this]
      exact hkk
    · obtain ⟨fr, f, h⟩ := h
      have : (alistGet? kk (set_button_change_brightness rk d p b nb w).cache) =
          some ⟨fr, f, 0, 0⟩ := h
      rw [this]
      rfl

/-- C3 amended witness: the amended theorem applied to a concrete world
whose cache already holds an entry `"D.0.0"`: the pop step empties the key,
`set_button_command` leaves the cache untouched, and
`set_button_change_brightness` keeps the existing entry present. -/
theorem C3_cache_invalidation_amended_witness :
    (C3wc.cache.map Prod.fst).Nodup ∧
    alistGet? (cacheKey "D" 0 0) (alistErase (cacheKey "D" 0 0) C3wc.cache) = none ∧
    (set_button_command "D" 0 0 "c" C3wc).cache = C3wc.cache ∧
    (alistGet? "D.0.0"
      (set_button_change_brightness C3rk "D" 0 0 5 C3wc).cache).isSome = true := by
  have h := C3_cache_invalidation_amended C3rk "D" 0 0 "c" 2 5 C3wc (by decide)
  exact ⟨by decide, h.1, h.2.2.2.1, h.2.2.2.2.2.2.2 "D.0.0" (by decide)⟩

lemma buttonGetD_materialize (d : String) (p b : Int) (t : StateTree) :
    buttonGetD d p b ((_button_state d p b t).2) = buttonGetD d p b t :=
  buttonGetD_of_lookup (_button_state_materializes d p b t)

lemma get_button_command_fst (d : String) (p b : Int) (t : StateTree) :
    (get_button_command d p b t).1 = (buttonGetD d p b t).command.getD "" := by
  rw [show (get_button_command d p b t).1 =
    (_button_state d p b t).1.command.getD "" from rfl, _button_state_fst]

lemma get_button_keys_fst (d : String) (p b : Int) (t : StateTree) :
    (get_button_keys d p b t).1 = (buttonGetD d p b t).keys.getD "" := by
  rw [show (get_button_keys d p b t).1 =
    (_button_state d p b t).1.keys.getD "" from rfl, _button_state_fst]

lemma get_button_write_fst (d : String) (p b : Int) (t : StateTree) :
    (get_button_write d p b t).1 = (buttonGetD d p b t).write.getD "" := by
  rw [show (get_button_write d p b t).1 =
    (_button_state d p b t).1.write.getD "" from rfl, _button_state_fst]

lemma get_button_change_brightness_fst (d : String) (p b : Int) (t : StateTree) :
    (get_button_change_brightness d p b t).1 =
      (buttonGetD d p b t).brightness_change.getD 0 := by
  rw [show (get_button_change_brightness d p b t).1 =
    (_button_state d p b t).1.brightness_change.getD 0 from rfl, _button_state_fst]

lemma get_button_switch_page_fst (d : String) (p b : Int) (t : StateTree) :
    (get_button_switch_page d p b t).1 =
      (buttonGetD d p b t).switch_page.getD 0 := by
  rw [show (get_button_switch_page d p b t).1 =
    (_button_state d p b t).1.switch_page.getD 0 from rfl, _button_state_fst]

lemma buttonGetD_after_set_brightness (d : String) (p b : Int) (v : Int)
    (t : StateTree) :
    buttonGetD d p b
      (alistSet d { (setdefault d {} t).1 with brightness := some v }
        (setdefault d {} t).2) = buttonGetD d p b t := by
  unfold buttonGetD pageGetD deckGetD
  rcases h : alistGet? d t with _ | deck
  · rw [setdefault_of_none h]
    rw [alistSet_append_left_none h]
    rw [alistGet?_append_of_none h]
    simp [alistGet?, alistSet, h]
  · rw [setdefault_of_some h]
    simp [alistGet?_set_self, h]

/-- C4: a release transition executes no action at all (the callback
returns the world unchanged, no events, no exception); a press transition
resolves the button of the device's current page and fires every configured
(non-empty) action, in the fixed order command, keys, write,
brightness_change, switch_page — provided the process launch succeeds when
a command is set and the deck is connected when a brightness change is set
(otherwise the raised exception aborts the remainder; see C7). -/
theorem C4_press_dispatch (rk : ButtonState → List Nat × ℚ)
    (popenOk : String → Bool) (d : String) (k : Int) (w : World) :
    (_key_change_callback rk popenOk d k false w = (w, [], none)) ∧
    (∀ bs, bs = buttonGetD d (get_page d w.state) k w.state →
      (bs.command.getD "" ≠ "" → popenOk (bs.command.getD "") = true) →
      (bs.brightness_change.getD 0 ≠ 0 → d ∈ w.decks) →
      (_key_change_callback rk popenOk d k true w).2.2 = none ∧
      (_key_change_callback rk popenOk d k true w).2.1 =
        (if bs.command.getD "" ≠ "" then
          [Event.launch ((bs.command.getD "").splitOn " ")] else []) ++
        (if bs.keys.getD "" ≠ "" then keysEvents (bs.keys.getD "") else []) ++
        (if bs.write.getD "" ≠ "" then [Event.typeText (bs.write.getD "")] else []) ++
        (if bs.brightness_change.getD 0 ≠ 0 then
          [Event.setBright d (max (min (get_brightness d w.state +
            bs.brightness_change.getD 0) 100) 0)] else []) ++
        (if bs.switch_page.getD 0 ≠ 0 then
          [Event.pageSwitch d (bs.switch_page.getD 0 - 1)] else [])) := by
  refine ⟨rfl, ?_⟩
  intro bs hbs hcmd hdeck
  simp only [_key_change_callback, if_true]
  set pg := get_page d w.state with hpg
  set rc := get_button_command d pg k w.state with hrc
  have hv1 : rc.1 = bs.command.getD "" := by
    rw [hrc, get_button_command_fst, hbs]
  have ht1 : buttonGetD d pg k rc.2 = bs := by
    rw [hrc, get_button_command_snd, buttonGetD_materialize, hbs]
  have hb1 : get_brightness d rc.2 = get_brightness d w.state := by
    rw [hrc, get_button_command_snd]
    exact get_brightness_button_state d d pg k w.state
  have hcfalse : ¬(rc.1 ≠ "" ∧ popenOk rc.1 = false) := by
    rintro ⟨hne, hfalse⟩
    rw [hv1] at hne hfalse
    rw [hcmd hne] at hfalse
    exact Bool.noConfusion hfalse
  rw [if_neg hcfalse]
  set rk2 := get_button_keys d pg k rc.2 with hrk2
  have hv2 : rk2.1 = bs.keys.getD "" := by
    rw [hrk2, get_button_keys_fst, ht1]
  have ht2 : buttonGetD d pg k rk2.2 = bs := by
    rw [hrk2, get_button_keys_snd, buttonGetD_materialize, ht1]
  have hb2 : get_brightness d rk2.2 = get_brightness d w.state := by
    rw [hrk2, get_button_keys_snd, get_brightness_button_state, hb1]
  set rw3 := get_button_write d pg k rk2.2 with hrw3
  have hv3 : rw3.1 = bs.write.getD "" := by
    rw [hrw3, get_button_write_fst, ht2]
  have ht3 : buttonGetD d pg k rw3.2 = bs := by
    rw [hrw3, get_button_write_snd, buttonGetD_materialize, ht2]
  have hb3 : get_brightness d rw3.2 = get_brightness d w.state := by
    rw [hrw3, get_button_write_snd, get_brightness_button_state, hb2]
  set rb4 := get_button_change_brightness d pg k rw3.2 with hrb4
  have hv4 : rb4.1 = bs.brightness_change.getD 0 := by
    rw [hrb4, get_button_change_brightness_fst, ht3]
  have ht4 : buttonGetD d pg k rb4.2 = bs := by
    rw [hrb4, get_button_change_brightness_snd, buttonGetD_materialize, ht3]
  have hb4 : get_brightness d rb4.2 = get_brightness d w.state := by
    rw [hrb4, get_button_change_brightness_snd, get_brightness_button_state, hb3]
  by_cases hbc : rb4.1 ≠ 0
  · rw [if_pos hbc, change_brightness_spec d rb4.1
      { state := rb4.2, cache := w.cache, decks := w.decks,
        persisted := w.persisted } (hdeck (hv4 ▸ hbc))]
    simp only [_save_state_state, get_button_switch_page_fst,
      buttonGetD_after_set_brightness, ht4]
    by_cases hsp : bs.switch_page.getD 0 ≠ 0
    · rw [if_pos hsp]
      refine ⟨rfl, ?_⟩
      rw [hv1, hv2, hv3, hb4, hv4]
      simp [hsp, hv4 ▸ hbc]
    · rw [if_neg hsp]
      refine ⟨rfl, ?_⟩
      rw [hv1, hv2, hv3, hb4, hv4]
      simp [hsp, hv4 ▸ hbc]
  · rw [if_neg hbc]
    have hbc0 : bs.brightness_change.getD 0 = 0 := by
      rw [← hv4]
      exact not_not.mp hbc
    simp only [get_button_switch_page_fst, ht4]
    by_cases hsp : bs.switch_page.getD 0 ≠ 0
    · rw [if_pos hsp]
      refine ⟨rfl, ?_⟩
      rw [hv1, hv2, hv3]
      simp [hsp, hbc0]
    · rw [if_neg hsp]
      refine ⟨rfl, ?_⟩
      rw [hv1, hv2, hv3]
      simp [hsp, hbc0]


/-- C4 witness: the theorem applied to a button with both `command "x a"`
and `write "hello"` set: a release executes nothing, and one press launches
the command (split on spaces) and types the text, in that order. -/
theorem C4_press_dispatch_witness :
    _key_change_callback C4rk (fun _ => true) "D" 0 false C4w = (C4w, [], none) ∧
    (_key_change_callback C4rk (fun _ => true) "D" 0 true C4w).2.2 = none ∧
    (_key_change_callback C4rk (fun _ => true) "D" 0 true C4w).2.1 =
      [Event.launch ("x a".splitOn " "), Event.typeText "hello"] := by
  have h := (C4_press_dispatch C4rk (fun _ => true) "D" 0 C4w).2
    (buttonGetD "D" (get_page "D" C4w.state) 0 C4w.state) rfl
    (fun _ => rfl) (fun hh => absurd (by decide) hh)
  refine ⟨(C4_press_dispatch C4rk (fun _ => true) "D" 0 C4w).1, h.1, ?_⟩
  rw [h.2]
  have hb : buttonGetD "D" (get_page "D" C4w.state) 0 C4w.state =
      { command := some "x a", write := some "hello" } := by decide
  rw [hb]
  simp

/-- C7 counterexample: the claim that a launch failure is never fatal to the
dispatcher is false: on a button with command `"badcmd"` (whose launch
fails) and write `"hello"`, the press produces no events at all — the
`write` action does not execute — and the exception escapes. -/
theorem C7_launch_failure_counterexample :
    (get_button_command "D" (get_page "D" C7w.state) 0 C7w.state).1 = "badcmd" ∧
    (get_button_write "D" (get_page "D" C7w.state) 0 C7w.state).1 = "hello" ∧
    (_key_change_callback C7rk (fun _ => false) "D" 0 true C7w).2.1 = [] ∧
    (_key_change_callback C7rk (fun _ => false) "D" 0 true C7w).2.2 =
      some "FileNotFoundError" ∧
    Event.typeText "hello" ∉
      (_key_change_callback C7rk (fun _ => false) "D" 0 true C7w).2.1 := by
  decide

/-- C7 amended: on a press of a button with a non-empty command, the
dispatcher launches the command as a new process with the arguments split
on single spaces (the launch event is the first emitted event when the
launch succeeds); a launch failure, however, raises an uncaught exception
that aborts the dispatcher — no further action (keys, write,
brightness_change, switch_page) of the same key event executes. -/
theorem C7_launch_failure_amended (rk : ButtonState → List Nat × ℚ)
    (popenOk : String → Bool) (d : String) (k : Int) (w : World) :
    ((get_button_command d (get_page d w.state) k w.state).1 ≠ "" →
      popenOk (get_button_command d (get_page d w.state) k w.state).1 = false →
      _key_change_callback rk popenOk d k true w =
        ({ w with state := (get_button_command d (get_page d w.state) k w.state).2 },
          [], some "FileNotFoundError")) ∧
    ((get_button_command d (get_page d w.state) k w.state).1 ≠ "" →
      popenOk (get_button_command d (get_page d w.state) k w.state).1 = true →
      ((_key_change_callback rk popenOk d k true w).2.1).head? =
        some (Event.launch
          ((get_button_command d (get_page d w.state) k w.state).1.splitOn " "))) := by
  constructor
  · intro h1 h2
    simp only [_key_change_callback, if_true]
    rw [if_pos ⟨h1, h2⟩]
  · intro h1 h2
    simp only [_key_change_callback, if_true]
    rw [if_neg fun hq => by rw [h2] at hq; exact Bool.noConfusion hq.2]
    split
    · simp [h1]
    · split <;> simp [h1]

/-- C7 amended witness: the theorem applied to the concrete failing world:
the press aborts with no events, and with a succeeding launcher the first
event is the launch of `["badcmd"]`. -/
theorem C7_launch_failure_amended_witness :
    (get_button_command "D" (get_page "D" C7w.state) 0 C7w.state).1 ≠ "" ∧
    _key_change_callback C7rk (fun _ => false) "D" 0 true C7w =
      ({ C7w with
          state := (get_button_command "D" (get_page "D" C7w.state) 0 C7w.state).2 },
        [], some "FileNotFoundError") ∧
    ((_key_change_callback C7rk (fun _ => true) "D" 0 true C7w).2.1).head? =
      some (Event.launch ("badcmd".splitOn " ")) := by
  have ha := (C7_launch_failure_amended C7rk (fun _ => false) "D" 0 C7w).1
    (by decide) rfl
  have hb := (C7_launch_failure_amended C7rk (fun _ => true) "D" 0 C7w).2
    (by decide) rfl
  refine ⟨by decide, ha, ?_⟩
  rw [hb]
  have hc : (get_button_command "D" (get_page "D" C7w.state) 0 C7w.state).1 =
      "badcmd" := by decide
  rw [hc]

end StreamdeckUI
